import Mathlib

/-!
Verification development for the piano-rs network core (`src/main.rs`).

The file shallowly embeds the dispatcher (`handle_network_receive_event`),
the input loop (`game_loop`) and the playback feeder (`play_from_file`) as
pure Lean functions over explicit state, and proves the specified
properties about them.  Library items that `main.rs` calls but whose
bodies are not part of this repository snapshot (the `piano_rs::network`
and `piano_rs::game` modules) are modelled from the specification where a
claim depends on them; each such definition says so in its doc comment.
-/

namespace PianoRs

/-- The rustbox terminal colors used by `main.rs` (the six explicit colors of
the id match plus the `Black` fallback). -/
inductive Color where
  | Blue
  | Red
  | Green
  | Yellow
  | Cyan
  | Magenta
  | Black
deriving DecidableEq, Repr

/-- A socket address: the observed source IP (kept abstract as a string, as
`main.rs` only ever formats it back into an address string) and a port. -/
structure SocketAddr where
  ip : String
  port : Nat
deriving DecidableEq, Repr

/-- A note value as constructed in `main.rs`: base-note name, the color it
carries from construction time, and its duration in milliseconds. -/
structure Note where
  baseNote : String
  color : Color
  durationMs : Nat
deriving DecidableEq, Repr

/-- The wire-visible event union.  The four payload-carrying variants are read
off the match arms of `handle_network_receive_event` (main.rs lines 31-59).
Modelled from the spec: the enum declaration itself lives in
`piano_rs::network` outside `src/`; every variant other than the four below is
represented by the single opaque constructor `Other`, which is exactly what
the catch-all arm at main.rs line 60 matches. -/
inductive NetworkEvent where
  | PlayerJoin (port : Nat)
  | Peers (port : Nat) (peers : List SocketAddr)
  | ID (id : Nat)
  | Note (note : Note)
  | Other
deriving DecidableEq, Repr

/-- What `Receiver.poll_event` returns on success: the decoded event tagged
with the UDP source address (`data.event` and `data.src` in main.rs). -/
structure ReceivedData where
  event : NetworkEvent
  src : SocketAddr
deriving DecidableEq, Repr

/-- Modelled from the spec: `Receiver.poll_event` (library code, not under
`src/`) fails with a decode error on a malformed or unknown-tag datagram and
with an I/O error on socket failure. -/
inductive PollError where
  | DecodeError
  | IOError
deriving DecidableEq, Repr

/-- The shared state the dispatcher mutates: the keyboard's local note color
(`PianoKeyboard` behind its mutex) and the sender's peer directory
(`Sender.peer_addrs` behind its mutex). -/
structure DispatchState where
  keyboardColor : Color
  peerAddrs : List SocketAddr
deriving DecidableEq, Repr

/-- An outward call the dispatcher makes during one iteration: registering a
joining peer with the sender, or rendering a remote note.  The bodies of
`register_remote_socket` and `play_note` are library code; `main.rs` only
issues the calls, so the embedding records them. -/
inductive DispatchCall where
  | registerRemoteSocket (localPort : Nat) (remoteAddr : SocketAddr)
  | playNote (note : Note)
deriving DecidableEq, Repr

/-- Result of one dispatcher iteration: either the updated shared state plus
the call it issued (if any), or a panic of the dispatcher thread. -/
inductive Outcome where
  | ok (st : DispatchState) (call : Option DispatchCall)
  | panic (msg : String)
deriving DecidableEq, Repr

/-- The fixed id-to-color table of the `NetworkEvent::ID` arm
(main.rs lines 47-55), written as the equivalent condition chain: ids 0-5 hit
the six explicit arms, everything else falls to the `_ => Color::Black` arm. -/
def idToColor (id : Nat) : Color :=
  if id = 0 then Color.Blue
  else if id = 1 then Color.Red
  else if id = 2 then Color.Green
  else if id = 3 then Color.Yellow
  else if id = 4 then Color.Cyan
  else if id = 5 then Color.Magenta
  else Color.Black

/-- One iteration of the dispatcher, embedding `handle_network_receive_event`
(main.rs lines 23-62).  `localPort` is
`event_receiver.socket.local_addr().unwrap().port()`.  `polled` is the result
of `event_receiver.poll_event()`; line 29 calls `.unwrap()` on it, so an
`Err` makes the thread panic.  The `Peers` arm writes `peers[0]` before
replacing `peer_addrs` wholesale, so an empty list panics with an
out-of-bounds index. -/
def handleNetworkReceiveEvent (localPort : Nat) (st : DispatchState)
    (polled : Except PollError ReceivedData) : Outcome :=
  match polled with
  | Except.error _ => Outcome.panic "called Result::unwrap on an Err value"
  | Except.ok data =>
    match data.event with
    | NetworkEvent.PlayerJoin port =>
        Outcome.ok st
          (some (DispatchCall.registerRemoteSocket localPort
            { ip := data.src.ip, port := port }))
    | NetworkEvent.Peers port peers =>
        match peers with
        | [] => Outcome.panic "index out of bounds: the len is 0 but the index is 0"
        | _ :: rest =>
            Outcome.ok
              { st with peerAddrs := { ip := data.src.ip, port := port } :: rest }
              none
    | NetworkEvent.ID id =>
        Outcome.ok { st with keyboardColor := idToColor id } none
    | NetworkEvent.Note note =>
        Outcome.ok st (some (DispatchCall.playNote note))
    | NetworkEvent.Other => Outcome.ok st none

/-- The note color `main` passes to `PianoKeyboard::new` at startup
(main.rs line 117). -/
def initialNoteColor : Color := Color.Blue

/-- One record of the playback file, as produced by `NoteReader.parse_notes`:
a base-note name, a duration and an inter-event delay (both in ms). -/
structure FileNote where
  baseNote : String
  durationMs : Nat
  delayMs : Nat
deriving DecidableEq, Repr

/-- The delay computation of main.rs lines 92-94:
`(file_base_note.delay.as_millis() as f32 / tempo) as u64`, over exact
rationals.  Rust float division is total; the saturating `as u64` cast sends
NaN (here only `0.0 / 0.0`) to 0, negative values to 0, values above
`u64::MAX` to `u64::MAX`, and truncates otherwise.  It never fails, whatever
the tempo. -/
def normalizedDelayMs (delayMs : Nat) (tempo : ℚ) : Nat :=
  if tempo = 0 then
    if delayMs = 0 then 0 else 2 ^ 64 - 1
  else
    let q : ℚ := (delayMs : ℚ) / tempo
    if q < 0 then 0 else min (2 ^ 64 - 1) q.floor.toNat

/-- An observable step of the playback feeder: constructing a `Note`
(which is when the keyboard color is read, main.rs line 89), sleeping, or
handing a note to `Sender.tick`. -/
inductive PlaybackAction where
  | constructNote (n : Note)
  | sleep (ms : Nat)
  | tick (n : Note)
deriving DecidableEq, Repr

/-- The loop body of `play_from_file` (main.rs lines 86-97) for one record.
`color` is the keyboard's local color read under the lock at `Note::from`
time (line 89).  The code constructs the note first, then computes the
normalized delay and sleeps, then calls `tick` with the already-built note. -/
def playRecordTrace (tempo : ℚ) (color : Color) (r : FileNote) : List PlaybackAction :=
  let note : Note := { baseNote := r.baseNote, color := color, durationMs := r.durationMs }
  [PlaybackAction.constructNote note,
   PlaybackAction.sleep (normalizedDelayMs r.delayMs tempo),
   PlaybackAction.tick note]

/-- The whole `play_from_file` loop over the parsed records, in file order.
Because the keyboard color is shared state that other threads may change
between iterations, each record is paired with the color observed when its
iteration takes the keyboard lock. -/
def playFromFile (tempo : ℚ) (recs : List (FileNote × Color)) : List PlaybackAction :=
  (recs.map fun rc => playRecordTrace tempo rc.2 rc.1).flatten

/-- The per-record trace as the specification sentence words it: sleep for the
scaled delay first, then construct the note from the current color, then
tick.  Kept separate from `playRecordTrace` (the one read off the source) so
the two orderings can be compared. -/
def claimPlayRecordTrace (tempo : ℚ) (color : Color) (r : FileNote) : List PlaybackAction :=
  let note : Note := { baseNote := r.baseNote, color := color, durationMs := r.durationMs }
  [PlaybackAction.sleep (normalizedDelayMs r.delayMs tempo),
   PlaybackAction.constructNote note,
   PlaybackAction.tick note]

/-- The playback loop as the specification words it, for comparison with
`playFromFile`. -/
def claimPlayFromFile (tempo : ℚ) (recs : List (FileNote × Color)) : List PlaybackAction :=
  (recs.map fun rc => claimPlayRecordTrace tempo rc.2 rc.1).flatten

/-- Errors of the configuration loader.  Modelled from the spec: invalid
tempo, invalid address strings and bad file paths are configuration errors,
fatal at startup. -/
inductive ConfigError where
  | invalidTempo
  | invalidAddress
  | badFilePath
deriving DecidableEq, Repr

/-- Modelled from the spec: the configuration loader (`Options::read`, not
under `src/`) validates the playback tempo at startup, before any network
activity begins, rejecting `tempo ≤ 0` as a fatal `ConfigError`. -/
def validatePlayTempo (tempo : ℚ) : Except ConfigError ℚ :=
  if tempo ≤ 0 then Except.error ConfigError.invalidTempo else Except.ok tempo

/-- True exactly on `tick` actions. -/
def isTick : PlaybackAction → Bool
  | PlaybackAction.tick _ => true
  | _ => false

/-- A raw terminal event as polled by `rustbox.peek_event` in `game_loop`:
a key event, the no-event-available timeout result, or any other event kind
(resize, mouse, ...).  The key itself stays abstract. -/
inductive RustboxEvent where
  | KeyEvent (key : Nat)
  | NoEvent
  | OtherEvent
deriving DecidableEq, Repr

/-- What `PianoKeyboard.process_key` can report for a key: a note to play, or
the quit signal.  Its body is library code outside `src/`; `game_loop` only
branches on this result, so the embedding takes the classifier as a
function argument. -/
inductive GameEvent where
  | Note (n : Note)
  | Quit
deriving DecidableEq, Repr

/-- What one `game_loop` iteration does: forward a note to `Sender.tick`,
leave the loop, go around again, or panic the process. -/
inductive LoopAction where
  | tickNote (n : Note)
  | breakLoop
  | continueLoop
  | panic (msg : String)
deriving DecidableEq, Repr

/-- One iteration of `game_loop` (main.rs lines 66-81).  `processKey` stands
for `keyboard.lock().unwrap().process_key`; `polled` is the result of
`rustbox.peek_event(duration, false)`.  A recognized note is ticked, the quit
signal breaks the loop, every other `Ok` event (including the timeout's
no-event result) falls to the `_ => {}` arm, and any `Err(e)` hits
`panic!`. -/
def gameLoopStep (processKey : Nat → Option GameEvent)
    (polled : Except String RustboxEvent) : LoopAction :=
  match polled with
  | Except.ok (RustboxEvent.KeyEvent k) =>
      match processKey k with
      | some (GameEvent.Note n) => LoopAction.tickNote n
      | some GameEvent.Quit => LoopAction.breakLoop
      | none => LoopAction.continueLoop
  | Except.ok RustboxEvent.NoEvent => LoopAction.continueLoop
  | Except.ok RustboxEvent.OtherEvent => LoopAction.continueLoop
  | Except.error e => LoopAction.panic e

/-- C1: handling a `Peers(port, peers)` event from source `src` patches index
0 of the received list to `(src.ip, port)` and replaces the peer directory
wholesale with the patched list, whatever the previous directory was; hence
after two successive `Peers` events the directory equals the second event's
patched list — a full replace, never a merge. -/
theorem peers_event_full_replace (lp : Nat) (st : DispatchState)
    (src1 src2 : SocketAddr) (p1 p2 : Nat) (l1 l2 : List SocketAddr)
    (h1 : l1 ≠ []) (h2 : l2 ≠ []) :
    handleNetworkReceiveEvent lp st
        (Except.ok ⟨NetworkEvent.Peers p1 l1, src1⟩)
      = Outcome.ok { st with peerAddrs := ⟨src1.ip, p1⟩ :: l1.tail } none
    ∧ handleNetworkReceiveEvent lp { st with peerAddrs := ⟨src1.ip, p1⟩ :: l1.tail }
        (Except.ok ⟨NetworkEvent.Peers p2 l2, src2⟩)
      = Outcome.ok { st with peerAddrs := ⟨src2.ip, p2⟩ :: l2.tail } none := by
  cases l1 with
  | nil => exact absurd rfl h1
  | cons a1 t1 =>
    cases l2 with
    | nil => exact absurd rfl h2
    | cons a2 t2 => exact ⟨rfl, rfl⟩

/-- Witness for C1: the spec's own example — `Peers(5000, [A, B, C])` from
source IP 9.9.9.9 makes the directory `[9.9.9.9:5000, B, C]`, and a second
`Peers` event fully replaces it. -/
theorem peers_event_full_replace_witness :
    handleNetworkReceiveEvent 4000 ⟨Color.Blue, []⟩
        (Except.ok ⟨NetworkEvent.Peers 5000
          [⟨"1.1.1.1", 1⟩, ⟨"2.2.2.2", 2⟩, ⟨"3.3.3.3", 3⟩], ⟨"9.9.9.9", 7777⟩⟩)
      = Outcome.ok ⟨Color.Blue,
          [⟨"9.9.9.9", 5000⟩, ⟨"2.2.2.2", 2⟩, ⟨"3.3.3.3", 3⟩]⟩ none
    ∧ handleNetworkReceiveEvent 4000
        ⟨Color.Blue, [⟨"9.9.9.9", 5000⟩, ⟨"2.2.2.2", 2⟩, ⟨"3.3.3.3", 3⟩]⟩
        (Except.ok ⟨NetworkEvent.Peers 6000 [⟨"8.8.8.8", 8⟩], ⟨"5.5.5.5", 5⟩⟩)
      = Outcome.ok ⟨Color.Blue, [⟨"5.5.5.5", 6000⟩]⟩ none :=
  peers_event_full_replace 4000 ⟨Color.Blue, []⟩ ⟨"9.9.9.9", 7777⟩ ⟨"5.5.5.5", 5⟩
    5000 6000 [⟨"1.1.1.1", 1⟩, ⟨"2.2.2.2", 2⟩, ⟨"3.3.3.3", 3⟩] [⟨"8.8.8.8", 8⟩]
    (by simp) (by simp)

/-- C2: main.rs line 29 calls `.unwrap()` on the result of `poll_event`, so a
decode error (malformed or unknown-tag datagram) makes the dispatcher thread
panic instead of dropping the event and continuing the loop.  This theorem
evaluates the handler at that failing input. -/
theorem decode_error_panics_dispatcher (lp : Nat) (st : DispatchState) :
    handleNetworkReceiveEvent lp st (Except.error PollError.DecodeError)
      = Outcome.panic "called Result::unwrap on an Err value" := rfl

/-- C3: handling `ID(id)` sets the local note color through the fixed table
`idToColor`; the six explicit colors for ids 0-5 are pairwise distinct, and
every id ≥ 6 falls to the single `Black` fallback.  Determinism is inherent:
`idToColor` is a function of the id alone. -/
theorem id_event_color_mapping (lp : Nat) (st : DispatchState)
    (src : SocketAddr) (id : Nat) :
    handleNetworkReceiveEvent lp st (Except.ok ⟨NetworkEvent.ID id, src⟩)
      = Outcome.ok { st with keyboardColor := idToColor id } none
    ∧ [idToColor 0, idToColor 1, idToColor 2, idToColor 3,
       idToColor 4, idToColor 5].Pairwise (· ≠ ·)
    ∧ (6 ≤ id → idToColor id = Color.Black) := by
  refine ⟨rfl, by decide, fun h => ?_⟩
  have h0 : id ≠ 0 := by omega
  have h1 : id ≠ 1 := by omega
  have h2 : id ≠ 2 := by omega
  have h3 : id ≠ 3 := by omega
  have h4 : id ≠ 4 := by omega
  have h5 : id ≠ 5 := by omega
  simp [idToColor, h0, h1, h2, h3, h4, h5]

/-- Witness for C3 at id = 9 (an id ≥ 6, mapped to the fallback color). -/
theorem id_event_color_mapping_witness :
    handleNetworkReceiveEvent 4000 ⟨Color.Blue, []⟩
        (Except.ok ⟨NetworkEvent.ID 9, ⟨"1.2.3.4", 1⟩⟩)
      = Outcome.ok ⟨idToColor 9, []⟩ none
    ∧ idToColor 9 = Color.Black :=
  ⟨(id_event_color_mapping 4000 ⟨Color.Blue, []⟩ ⟨"1.2.3.4", 1⟩ 9).1,
   (id_event_color_mapping 4000 ⟨Color.Blue, []⟩ ⟨"1.2.3.4", 1⟩ 9).2.2 (by norm_num)⟩

/-- C4: handling `PlayerJoin(port)` from source `src` computes the joining
peer's address as `(src.ip, port)` — the observed source IP combined with
the payload port, ignoring the datagram's source port — and calls
`Sender.register_remote_socket` with the local receiver's port and exactly
that address, leaving the shared state untouched. -/
theorem player_join_registers_remote (lp : Nat) (st : DispatchState)
    (src : SocketAddr) (port : Nat) :
    handleNetworkReceiveEvent lp st
        (Except.ok ⟨NetworkEvent.PlayerJoin port, src⟩)
      = Outcome.ok st
          (some (DispatchCall.registerRemoteSocket lp ⟨src.ip, port⟩)) := rfl

/-- C8: a successfully decoded event of any variant other than `PlayerJoin`,
`Peers`, `ID` or `Note` hits the catch-all arm: no panic, no call, and the
shared keyboard/peer state is returned unchanged. -/
theorem unrecognized_variant_ignored (lp : Nat) (st : DispatchState)
    (src : SocketAddr) :
    handleNetworkReceiveEvent lp st (Except.ok ⟨NetworkEvent.Other, src⟩)
      = Outcome.ok st none := rfl

/-- C9: the `Peers` arm writes `peers[0]` unconditionally, so a `Peers` event
carrying an empty list makes the handler panic with an out-of-bounds index
instead of ignoring or patching the event. -/
theorem empty_peers_list_panics (lp : Nat) (st : DispatchState)
    (src : SocketAddr) (port : Nat) :
    handleNetworkReceiveEvent lp st
        (Except.ok ⟨NetworkEvent.Peers port [], src⟩)
      = Outcome.panic "index out of bounds: the len is 0 but the index is 0" := rfl

/-- C10: the keyboard starts with `Color::Blue` (main.rs line 117), which is
exactly the color the fixed table assigns to id 0, so notes authored before
the host's `ID` response carry participant 0's color. -/
theorem initial_color_is_participant_zero :
    initialNoteColor = Color.Blue ∧ idToColor 0 = initialNoteColor := ⟨rfl, rfl⟩

/-- Counterexample to C5 as stated: `play_from_file` does not sleep before
constructing the note.  On a concrete one-record file the code's trace begins
with the note construction (the color read), not with the sleep, so it
differs from the sleep-first trace the claim describes. -/
theorem play_order_counterexample :
    playFromFile 1 [(⟨"a4", 150, 100⟩, Color.Red)]
      ≠ claimPlayFromFile 1 [(⟨"a4", 150, 100⟩, Color.Red)] := by
  decide

/-- C5 (amended): for every record of the playback file, in file order, the
feeder first constructs the `Note` — reading the keyboard's current local
color at construction time, so the color is not a property of the pitch —
then sleeps for the record's delay divided by the tempo, then calls
`Sender.tick` with the note it built.  Stated positionally: record `i`
occupies trace slots `3i`, `3i+1`, `3i+2`. -/
theorem play_from_file_record_order (tempo : ℚ)
    (recs : List (FileNote × Color)) (i : Nat) (h : i < recs.length) :
    (playFromFile tempo recs)[3 * i]?
        = some (PlaybackAction.constructNote
            ⟨(recs.get ⟨i, h⟩).1.baseNote, (recs.get ⟨i, h⟩).2,
             (recs.get ⟨i, h⟩).1.durationMs⟩)
    ∧ (playFromFile tempo recs)[3 * i + 1]?
        = some (PlaybackAction.sleep
            (normalizedDelayMs (recs.get ⟨i, h⟩).1.delayMs tempo))
    ∧ (playFromFile tempo recs)[3 * i + 2]?
        = some (PlaybackAction.tick
            ⟨(recs.get ⟨i, h⟩).1.baseNote, (recs.get ⟨i, h⟩).2,
             (recs.get ⟨i, h⟩).1.durationMs⟩) := by
  induction recs generalizing i with
  | nil => exact absurd h (by simp)
  | cons rc rest ih =>
    have hcons : playFromFile tempo (rc :: rest)
        = playRecordTrace tempo rc.2 rc.1 ++ playFromFile tempo rest := by
      simp [playFromFile]
    cases i with
    | zero =>
      refine ⟨?_, ?_, ?_⟩ <;> simp [hcons, playRecordTrace]
    | succ j =>
      have hj : j < rest.length := by simpa using h
      obtain ⟨ih1, ih2, ih3⟩ := ih j hj
      have e0 : 3 * (j + 1) = 3 * j + 1 + 1 + 1 := by ring
      have e1 : 3 * (j + 1) + 1 = 3 * j + 1 + 1 + 1 + 1 := by ring
      have e2 : 3 * (j + 1) + 2 = 3 * j + 2 + 1 + 1 + 1 := by ring
      refine ⟨?_, ?_, ?_⟩
      · rw [hcons, e0]
        simpa [playRecordTrace] using ih1
      · rw [hcons, e1]
        simpa [playRecordTrace] using ih2
      · rw [hcons, e2]
        simpa [playRecordTrace] using ih3

/-- Witness for the amended C5 on a concrete one-record file. -/
theorem play_from_file_record_order_witness :
    (playFromFile 2 [(⟨"a4", 150, 100⟩, Color.Red)])[3 * 0]?
        = some (PlaybackAction.constructNote ⟨"a4", Color.Red, 150⟩)
    ∧ (playFromFile 2 [(⟨"a4", 150, 100⟩, Color.Red)])[3 * 0 + 1]?
        = some (PlaybackAction.sleep (normalizedDelayMs 100 2))
    ∧ (playFromFile 2 [(⟨"a4", 150, 100⟩, Color.Red)])[3 * 0 + 2]?
        = some (PlaybackAction.tick ⟨"a4", Color.Red, 150⟩) :=
  play_from_file_record_order 2 [(⟨"a4", 150, 100⟩, Color.Red)] 0 (by decide)

/-- C6: a tempo ≤ 0 is rejected by the startup configuration check before any
network activity, while the playback loop itself is total in the tempo — for
every tempo, valid or not, every record's delay computation succeeds and its
note reaches `Sender.tick` (exactly one tick per record, no tempo error). -/
theorem tempo_rejected_at_startup_not_playback (t : ℚ) (ht : t ≤ 0)
    (t2 : ℚ) (recs : List (FileNote × Color)) :
    validatePlayTempo t = Except.error ConfigError.invalidTempo
    ∧ (playFromFile t2 recs).countP isTick = recs.length := by
  refine ⟨by simp [validatePlayTempo, ht], ?_⟩
  induction recs with
  | nil => rfl
  | cons rc rest ih =>
    have hcons : playFromFile t2 (rc :: rest)
        = playRecordTrace t2 rc.2 rc.1 ++ playFromFile t2 rest := by
      simp [playFromFile]
    rw [hcons, List.countP_append, ih]
    simp [playRecordTrace, isTick, Nat.add_comm]

/-- Witness for C6: tempo 0 is rejected at startup, and playback at the
(invalid) tempo -1 still ticks the single record of a concrete file. -/
theorem tempo_rejected_at_startup_not_playback_witness :
    validatePlayTempo 0 = Except.error ConfigError.invalidTempo
    ∧ (playFromFile (-1) [(⟨"a4", 150, 100⟩, Color.Blue)]).countP isTick
        = ([(⟨"a4", 150, 100⟩, Color.Blue)] : List (FileNote × Color)).length :=
  tempo_rejected_at_startup_not_playback 0 (by norm_num) (-1)
    [(⟨"a4", 150, 100⟩, Color.Blue)]

/-- A concrete key classifier used to witness the `game_loop` theorem: key 0
is the quit key, key 1 plays a fixed note, every other key is unrecognized. -/
def sampleProcessKey : Nat → Option GameEvent
  | 0 => some GameEvent.Quit
  | 1 => some (GameEvent.Note ⟨"a4", Color.Blue, 150⟩)
  | _ => none

/-- C7: one `game_loop` iteration ticks a key recognized as a note, breaks on
the quit signal, ignores unrecognized keys, ignores non-key events and the
no-event timeout result, and panics with the underlying error on any polling
error. -/
theorem game_loop_step_cases (pk : Nat → Option GameEvent) (k : Nat)
    (n : Note) (e : String) :
    (pk k = some (GameEvent.Note n) →
        gameLoopStep pk (Except.ok (RustboxEvent.KeyEvent k))
          = LoopAction.tickNote n)
    ∧ (pk k = some GameEvent.Quit →
        gameLoopStep pk (Except.ok (RustboxEvent.KeyEvent k))
          = LoopAction.breakLoop)
    ∧ (pk k = none →
        gameLoopStep pk (Except.ok (RustboxEvent.KeyEvent k))
          = LoopAction.continueLoop)
    ∧ gameLoopStep pk (Except.ok RustboxEvent.NoEvent) = LoopAction.continueLoop
    ∧ gameLoopStep pk (Except.ok RustboxEvent.OtherEvent) = LoopAction.continueLoop
    ∧ gameLoopStep pk (Except.error e) = LoopAction.panic e := by
  refine ⟨fun h => ?_, fun h => ?_, fun h => ?_, rfl, rfl, rfl⟩ <;>
    simp [gameLoopStep, h]

/-- Witness for C7: the three key-event implications discharged on the
concrete classifier `sampleProcessKey`. -/
theorem game_loop_step_cases_witness :
    gameLoopStep sampleProcessKey (Except.ok (RustboxEvent.KeyEvent 1))
        = LoopAction.tickNote ⟨"a4", Color.Blue, 150⟩
    ∧ gameLoopStep sampleProcessKey (Except.ok (RustboxEvent.KeyEvent 0))
        = LoopAction.breakLoop
    ∧ gameLoopStep sampleProcessKey (Except.ok (RustboxEvent.KeyEvent 2))
        = LoopAction.continueLoop :=
  ⟨(game_loop_step_cases sampleProcessKey 1 ⟨"a4", Color.Blue, 150⟩ "e").1 rfl,
   (game_loop_step_cases sampleProcessKey 0 ⟨"a4", Color.Blue, 150⟩ "e").2.1 rfl,
   (game_loop_step_cases sampleProcessKey 2 ⟨"a4", Color.Blue, 150⟩ "e").2.2.1 rfl⟩

end PianoRs
